import Mathlib

/-!
Shallow embedding of the response-decompression layer (response.rs) of an
HTTP client: a two-state Response that validates the HTTP status and selects
a decompression backend, a Chunks stream dispatching over the active backend,
a buffer bridge between two byte-buffer representations, and the mapping of
transport, protocol and decode failures into one error taxonomy.

External collaborators (the hyper transport, the codec libraries) are
modelled as streams of events: each poll of an external stream consumes the
next scheduled event. Machine bytes are Nat values below 256; byte buffers
are lists of such values.
-/

namespace Resp

/-- The canonical byte-buffer type (bytes::Bytes): its observable content. -/
structure Bytes where
  data : List Nat
deriving DecidableEq, Repr

/-- The legacy byte-buffer type (bytes_05::Bytes) required by some decoder
backends; structurally separate from the canonical type. -/
structure Bytes05 where
  data : List Nat
deriving DecidableEq, Repr

/-- An opaque transport-level error coming from the underlying HTTP client
(hyper::Error); only its identity matters to this layer. -/
structure HyperError where
  id : Nat
deriving DecidableEq, Repr

mutual

/-- Modelled from the spec: the unified error taxonomy of the crate
(error.rs is not part of the sources given): Transport wraps an underlying
client failure, BadResponse carries the reason text of a non-success status
as a list of Unicode scalar values, Decode wraps an io-level diagnostic from
a codec backend. -/
inductive Error where
  | BadResponse (reason : List Nat)
  | Transport (e : HyperError)
  | Decode (e : IoError)

/-- Modelled from the spec: the generic io-error shape the legacy decoders
exchange; either a raw codec diagnostic or a unified error translated into
io shape on the way into a decoder, retaining enough information to be
reconstructed on the way back out. -/
inductive IoError where
  | codec (id : Nat)
  | wrapped (e : Error)

end

/-- Modelled from the spec: conversion of an underlying client error into
the unified error type (the From impl used by the question-mark operator and
by Into at the Plain arm): it produces a Transport error. -/
def Error.fromHyper (e : HyperError) : Error :=
  Error.Transport e

/-- Modelled from the spec: translation of a unified error into the generic
io-error shape expected by a legacy decoder, keeping the original error. -/
def Error.into_io (e : Error) : IoError :=
  IoError.wrapped e

/-- Modelled from the spec: wrapping of an io-level decoder diagnostic as a
Decode error, distinct from a Transport error. -/
def Error.decode_io (e : IoError) : Error :=
  Error.Decode e

/-- The compression algorithm negotiated for the request (compression.rs is
not part of the sources given; the variant set is fixed by the spec and by
the match in resolve). -/
inductive Compression where
  | none
  | lz4
  | gzip
  | zlib
  | brotli
deriving DecidableEq, Repr

/-- Outcome of one non-blocking poll (task::Poll). -/
inductive Poll (α : Type) where
  | ready (a : α)
  | pending
deriving DecidableEq, Repr

/-- Functorial action on the ready value of a poll. -/
def Poll.map {α β : Type} (f : α → β) : Poll α → Poll β
  | Poll.ready a => Poll.ready (f a)
  | Poll.pending => Poll.pending

/-- One scheduled event of the raw transport body stream: a delivered chunk,
a transport error, or a not-ready-yet suspension. After the schedule is
exhausted the stream signals end-of-data forever. -/
inductive BodyEvent where
  | chunk (b : Bytes)
  | fail (e : HyperError)
  | pend
deriving DecidableEq, Repr

/-- The raw transport body (hyper::Body), modelled as its remaining event
schedule together with its current size hint. -/
structure Body where
  events : List BodyEvent
  hint : Nat × Option Nat
deriving DecidableEq, Repr

/-- One poll of the raw body stream: consumes the next scheduled event. -/
def Body.pollNext (b : Body) : Poll (Option (Except HyperError Bytes)) × Body :=
  match b.events with
  | [] => (Poll.ready Option.none, b)
  | BodyEvent.chunk c :: r => (Poll.ready (Option.some (Except.ok c)), ⟨r, b.hint⟩)
  | BodyEvent.fail e :: r => (Poll.ready (Option.some (Except.error e)), ⟨r, b.hint⟩)
  | BodyEvent.pend :: r => (Poll.pending, ⟨r, b.hint⟩)

/-- Reading the whole body to completion (body::to_bytes): suspensions are
awaited through, chunks are concatenated in order, and the first transport
error aborts the read. -/
def bodyToBytes : List BodyEvent → Except HyperError (List Nat)
  | [] => Except.ok []
  | BodyEvent.chunk c :: r =>
    match bodyToBytes r with
    | Except.ok bs => Except.ok (c.data ++ bs)
    | Except.error e => Except.error e
  | BodyEvent.fail e :: _ => Except.error e
  | BodyEvent.pend :: r => bodyToBytes r

/-- Continuation byte test of UTF-8: bytes 0x80 to 0xBF. -/
def isCont (b : Nat) : Bool :=
  decide (0x80 ≤ b ∧ b ≤ 0xBF)

/-- Admissible first continuation byte of a three-byte sequence, which
depends on the leading byte (excluding overlong and surrogate encodings). -/
def isCont3 (b0 b1 : Nat) : Bool :=
  if b0 = 0xE0 then decide (0xA0 ≤ b1 ∧ b1 ≤ 0xBF)
  else if b0 = 0xED then decide (0x80 ≤ b1 ∧ b1 ≤ 0x9F)
  else isCont b1

/-- Admissible first continuation byte of a four-byte sequence, which
depends on the leading byte (excluding overlong and beyond-max encodings). -/
def isCont4 (b0 b1 : Nat) : Bool :=
  if b0 = 0xF0 then decide (0x90 ≤ b1 ∧ b1 ≤ 0xBF)
  else if b0 = 0xF4 then decide (0x80 ≤ b1 ∧ b1 ≤ 0x8F)
  else isCont b1

/-- Lossy UTF-8 decoding (String::from_utf8_lossy) to a list of Unicode
scalar values: each maximal invalid subsequence is replaced by one U+FFFD
replacement character, following the substitution-of-maximal-subparts
policy of the Rust standard library. -/
def fromUtf8Lossy : List Nat → List Nat
  | [] => []
  | b0 :: rest =>
    if b0 < 0x80 then
      b0 :: fromUtf8Lossy rest
    else if b0 < 0xC2 then
      0xFFFD :: fromUtf8Lossy rest
    else if b0 < 0xE0 then
      match rest with
      | [] => [0xFFFD]
      | b1 :: rest1 =>
        if isCont b1 then
          ((b0 - 0xC0) * 0x40 + (b1 - 0x80)) :: fromUtf8Lossy rest1
        else
          0xFFFD :: fromUtf8Lossy (b1 :: rest1)
    else if b0 < 0xF0 then
      match rest with
      | [] => [0xFFFD]
      | b1 :: rest1 =>
        if isCont3 b0 b1 then
          match rest1 with
          | [] => [0xFFFD]
          | b2 :: rest2 =>
            if isCont b2 then
              ((b0 - 0xE0) * 0x1000 + (b1 - 0x80) * 0x40 + (b2 - 0x80)) ::
                fromUtf8Lossy rest2
            else
              0xFFFD :: fromUtf8Lossy (b2 :: rest2)
        else
          0xFFFD :: fromUtf8Lossy (b1 :: rest1)
    else if b0 < 0xF5 then
      match rest with
      | [] => [0xFFFD]
      | b1 :: rest1 =>
        if isCont4 b0 b1 then
          match rest1 with
          | [] => [0xFFFD]
          | b2 :: rest2 =>
            if isCont b2 then
              match rest2 with
              | [] => [0xFFFD]
              | b3 :: rest3 =>
                if isCont b3 then
                  ((b0 - 0xF0) * 0x40000 + (b1 - 0x80) * 0x1000 +
                    (b2 - 0x80) * 0x40 + (b3 - 0x80)) :: fromUtf8Lossy rest3
                else
                  0xFFFD :: fromUtf8Lossy (b3 :: rest3)
            else
              0xFFFD :: fromUtf8Lossy (b2 :: rest2)
        else
          0xFFFD :: fromUtf8Lossy (b1 :: rest1)
    else
      0xFFFD :: fromUtf8Lossy rest

/-- The Unicode White_Space property, as used by the trim method of str. -/
def isRustWhitespace (c : Nat) : Bool :=
  decide ((0x09 ≤ c ∧ c ≤ 0x0D) ∨ c = 0x20 ∨ c = 0x85 ∨ c = 0xA0 ∨
    c = 0x1680 ∨ (0x2000 ≤ c ∧ c ≤ 0x200A) ∨ c = 0x2028 ∨ c = 0x2029 ∨
    c = 0x202F ∨ c = 0x205F ∨ c = 0x3000)

/-- Removal of leading and trailing whitespace (the trim method of str). -/
def trim (s : List Nat) : List Nat :=
  ((s.dropWhile isRustWhitespace).reverse.dropWhile isRustWhitespace).reverse

/-- One scheduled output event of an external compression decoder backend
(the gzip, zlib and brotli decoders of the codec library): a decoded legacy
buffer, an io-level failure, or a suspension; after the schedule is
exhausted the decoder signals end-of-data forever. The codec internals are
external to this layer, so a decoder is modelled by its emission schedule. -/
inductive DecEvent where
  | out (b : Bytes05)
  | ioErr (e : IoError)
  | pend

/-- State of an external compression decoder backend: remaining emission
schedule and current size hint. -/
structure CompressionDecoder where
  events : List DecEvent
  hint : Nat × Option Nat

/-- One poll of an external compression decoder. -/
def CompressionDecoder.pollNext (d : CompressionDecoder) :
    Poll (Option (Except IoError Bytes05)) × CompressionDecoder :=
  match d.events with
  | [] => (Poll.ready Option.none, d)
  | DecEvent.out b :: r => (Poll.ready (Option.some (Except.ok b)), ⟨r, d.hint⟩)
  | DecEvent.ioErr e :: r => (Poll.ready (Option.some (Except.error e)), ⟨r, d.hint⟩)
  | DecEvent.pend :: r => (Poll.pending, ⟨r, d.hint⟩)

/-- One scheduled output event of the lz4 decoder, whose stream items are
already in the unified result type (compression/lz4.rs is not part of the
sources given; its item type is fixed by the undecorated dispatch arm in
poll_next). -/
inductive Lz4Event where
  | out (b : Bytes)
  | fail (e : Error)
  | pend

/-- State of the lz4 decoder backend: remaining emission schedule and
current size hint. -/
structure Lz4Decoder where
  events : List Lz4Event
  hint : Nat × Option Nat

/-- One poll of the lz4 decoder. -/
def Lz4Decoder.pollNext (d : Lz4Decoder) :
    Poll (Option (Except Error Bytes)) × Lz4Decoder :=
  match d.events with
  | [] => (Poll.ready Option.none, d)
  | Lz4Event.out b :: r => (Poll.ready (Option.some (Except.ok b)), ⟨r, d.hint⟩)
  | Lz4Event.fail e :: r => (Poll.ready (Option.some (Except.error e)), ⟨r, d.hint⟩)
  | Lz4Event.pend :: r => (Poll.pending, ⟨r, d.hint⟩)

/-- Copy of a canonical buffer into a legacy buffer (to_bytes05: the buffer
content is copied to a vector and moved into the legacy type). -/
def to_bytes05 (b : Bytes) : Bytes05 :=
  ⟨b.data⟩

/-- Copy of a legacy buffer back into a canonical buffer (from_bytes05). -/
def from_bytes05 (b : Bytes05) : Bytes :=
  ⟨b.data⟩

/-- The buffer bridge around the raw body (BodyAdapter): lets a legacy-typed
decoder consume the canonical transport stream. -/
structure BodyAdapter where
  body : Body
deriving DecidableEq, Repr

/-- One poll of the buffer bridge: delegates to the raw body, copies each
chunk into the legacy buffer type, and translates each transport error into
the io-error shape the legacy decoder expects. -/
def BodyAdapter.pollNext (a : BodyAdapter) :
    Poll (Option (Except IoError Bytes05)) × BodyAdapter :=
  match Body.pollNext a.body with
  | (p, b2) =>
    (Poll.map (fun o => o.map (fun res =>
      match res with
      | Except.ok v => Except.ok (to_bytes05 v)
      | Except.error e => Except.error (Error.into_io (Error.fromHyper e)))) p,
     ⟨b2⟩)

/-- Size hint of the buffer bridge: forwards the hint of the raw body. -/
def BodyAdapter.sizeHint (a : BodyAdapter) : Nat × Option Nat :=
  a.body.hint

/-- Error mapping over a poll result (map_poll_err): values, end-of-data and
suspension pass through unchanged; an error is mapped by the given function. -/
def map_poll_err {T E E2 : Type} (poll : Poll (Option (Except E T)))
    (f : E → E2) : Poll (Option (Except E2 T)) :=
  match poll with
  | Poll.ready (Option.some (Except.ok val)) => Poll.ready (Option.some (Except.ok val))
  | Poll.ready (Option.some (Except.error e)) => Poll.ready (Option.some (Except.error (f e)))
  | Poll.ready Option.none => Poll.ready Option.none
  | Poll.pending => Poll.pending

/-- Mapping of a compression-decoder poll into the unified item type
(map_compression_poll): a decoded legacy buffer is copied back into the
canonical type, an io-level failure becomes a Decode error, end-of-data and
suspension pass through unchanged. -/
def map_compression_poll (poll : Poll (Option (Except IoError Bytes05))) :
    Poll (Option (Except Error Bytes)) :=
  match poll with
  | Poll.ready (Option.some (Except.ok val)) =>
    Poll.ready (Option.some (Except.ok (from_bytes05 val)))
  | Poll.ready (Option.some (Except.error e)) =>
    Poll.ready (Option.some (Except.error (Error.decode_io e)))
  | Poll.ready Option.none => Poll.ready Option.none
  | Poll.pending => Poll.pending

/-- The wrapped state of the output stream (enum Inner): the raw body for
the uncompressed case, one decoder backend per algorithm, or Empty after
exhaustion. -/
inductive Inner where
  | Plain (b : Body)
  | Lz4 (d : Lz4Decoder)
  | Gzip (d : CompressionDecoder)
  | Zlib (d : CompressionDecoder)
  | Brotli (d : CompressionDecoder)
  | Empty

/-- The polymorphic output stream (struct Chunks), owning its inner state. -/
structure Chunks where
  inner : Inner

/-- The dispatch step of one poll of the output stream: polls the active
backend with the error mapping of its arm (the computation of res in
poll_next). -/
def Chunks.pollStep (c : Chunks) : Poll (Option (Except Error Bytes)) × Inner :=
  match c.inner with
  | Inner.Plain b =>
    match Body.pollNext b with
    | (p, b2) => (map_poll_err p Error.fromHyper, Inner.Plain b2)
  | Inner.Lz4 d =>
    match Lz4Decoder.pollNext d with
    | (p, d2) => (p, Inner.Lz4 d2)
  | Inner.Gzip d =>
    match CompressionDecoder.pollNext d with
    | (p, d2) => (map_compression_poll p, Inner.Gzip d2)
  | Inner.Zlib d =>
    match CompressionDecoder.pollNext d with
    | (p, d2) => (map_compression_poll p, Inner.Zlib d2)
  | Inner.Brotli d =>
    match CompressionDecoder.pollNext d with
    | (p, d2) => (map_compression_poll p, Inner.Brotli d2)
  | Inner.Empty => (Poll.ready Option.none, Inner.Empty)

/-- One poll of the output stream: runs the dispatch step, then, whenever
the result is end-of-data, replaces the inner state with Empty before
returning the result. -/
def Chunks.pollNext (c : Chunks) : Poll (Option (Except Error Bytes)) × Chunks :=
  match Chunks.pollStep c with
  | (Poll.ready Option.none, _) => (Poll.ready Option.none, ⟨Inner.Empty⟩)
  | (res, inner2) => (res, ⟨inner2⟩)

/-- Size hint of the output stream: forwards the hint of the active backend
verbatim; Empty reports exactly zero remaining items. -/
def Chunks.sizeHint (c : Chunks) : Nat × Option Nat :=
  match c.inner with
  | Inner.Plain b => b.hint
  | Inner.Lz4 d => d.hint
  | Inner.Gzip d => d.hint
  | Inner.Zlib d => d.hint
  | Inner.Brotli d => d.hint
  | Inner.Empty => (0, Option.some 0)

/-- Iterated polling of the output stream: the list of the first n poll
results together with the state after them. -/
def pollIter : Nat → Chunks → List (Poll (Option (Except Error Bytes))) × Chunks
  | 0, c => ([], c)
  | Nat.succ n, c =>
    match Chunks.pollNext c with
    | (r, c2) =>
      match pollIter n c2 with
      | (rs, c3) => (r :: rs, c3)

/-- The expected output of one poll of the Plain backend for one scheduled
transport event: a chunk passes through with identical bytes, a transport
error is converted by the direct mapping, a suspension passes through. -/
def plainItem : BodyEvent → Poll (Option (Except Error Bytes))
  | BodyEvent.chunk c => Poll.ready (Option.some (Except.ok c))
  | BodyEvent.fail e => Poll.ready (Option.some (Except.error (Error.fromHyper e)))
  | BodyEvent.pend => Poll.pending

/-- The realized HTTP response: a status code and the raw body stream. -/
structure HttpResponse where
  status : Nat
  body : Body

/-- The deferred response value of the underlying client (hyper
ResponseFuture), modelled as consumable: it resolves exactly once to a
transport outcome; polling it again after completion is outside the Future
contract, so an awaited future is replaced by the consumed marker. -/
inductive ResponseFuture where
  | ready (r : Except HyperError HttpResponse)
  | consumed

/-- The two-state lifecycle object (enum Response): still waiting on the
deferred response with the negotiated algorithm, or loaded with the
realized output stream. -/
inductive Response where
  | Waiting (f : ResponseFuture) (compression : Compression)
  | Loading (chunks : Chunks)

/-- Pure construction of a Response (Response::new). -/
def Response.new (f : ResponseFuture) (compression : Compression) : Response :=
  Response.Waiting f compression

/-- Resolution of a Response (Response::resolve). The constructors of the
external decoder backends are passed as parameters, since what a codec
library builds from a wrapped stream is external to this layer. In the
Waiting state the deferred response is awaited: a transport failure is
surfaced as a Transport error; a non-success status drains the whole body,
decodes it lossily, trims it incrementally and fails with BadResponse; a
success status selects the backend matching the algorithm and moves to
Loading. In the Loading state the realized stream is returned as is.
Awaiting an already-consumed future has no defined outcome, modelled as
Option.none. -/
def resolve (ng nz nb : BodyAdapter → CompressionDecoder)
    (nl : Body → Lz4Decoder) :
    Response → Option (Except Error Chunks × Response)
  | Response.Loading chunks =>
    Option.some (Except.ok chunks, Response.Loading chunks)
  | Response.Waiting ResponseFuture.consumed _ => Option.none
  | Response.Waiting (ResponseFuture.ready res) compression =>
    match res with
    | Except.error e =>
      Option.some (Except.error (Error.fromHyper e),
        Response.Waiting ResponseFuture.consumed compression)
    | Except.ok response =>
      if response.status ≠ 200 then
        match bodyToBytes response.body.events with
        | Except.error e =>
          Option.some (Except.error (Error.fromHyper e),
            Response.Waiting ResponseFuture.consumed compression)
        | Except.ok bytes =>
          Option.some (Except.error (Error.BadResponse (trim (fromUtf8Lossy bytes))),
            Response.Waiting ResponseFuture.consumed compression)
      else
        let inner : Inner :=
          match compression with
          | Compression.none => Inner.Plain response.body
          | Compression.lz4 => Inner.Lz4 (nl response.body)
          | Compression.gzip => Inner.Gzip (ng ⟨response.body⟩)
          | Compression.zlib => Inner.Zlib (nz ⟨response.body⟩)
          | Compression.brotli => Inner.Brotli (nb ⟨response.body⟩)
        Option.some (Except.ok ⟨inner⟩, Response.Loading ⟨inner⟩)

/-- Helper: polling the exhausted stream any number of times yields
end-of-data each time and leaves the state Empty. -/
lemma pollIter_empty (k : Nat) :
    pollIter k ⟨Inner.Empty⟩
      = (List.replicate k (Poll.ready Option.none), ⟨Inner.Empty⟩) := by
  induction k with
  | zero => rfl
  | succ n ih =>
    simp [pollIter, ih, Chunks.pollNext, Chunks.pollStep, List.replicate]

/-- Claim C8: the size hint of a Chunks stream forwards the active backend
hint verbatim for every backend, and the Empty (exhausted) state reports
exactly zero remaining items. -/
theorem size_hint_forwarding :
    (∀ b : Body, Chunks.sizeHint ⟨Inner.Plain b⟩ = b.hint)
    ∧ (∀ d : Lz4Decoder, Chunks.sizeHint ⟨Inner.Lz4 d⟩ = d.hint)
    ∧ (∀ d : CompressionDecoder, Chunks.sizeHint ⟨Inner.Gzip d⟩ = d.hint)
    ∧ (∀ d : CompressionDecoder, Chunks.sizeHint ⟨Inner.Zlib d⟩ = d.hint)
    ∧ (∀ d : CompressionDecoder, Chunks.sizeHint ⟨Inner.Brotli d⟩ = d.hint)
    ∧ Chunks.sizeHint ⟨Inner.Empty⟩ = (0, Option.some 0) :=
  ⟨fun _ => rfl, fun _ => rfl, fun _ => rfl, fun _ => rfl, fun _ => rfl, rfl⟩

/-- Claim C7: the buffer bridge conversions preserve byte content exactly:
converting a canonical buffer to the legacy type and back yields the same
content, and each single direction leaves the byte list unchanged. -/
theorem buffer_bridge_roundtrip :
    (∀ b : Bytes, from_bytes05 (to_bytes05 b) = b)
    ∧ (∀ b : Bytes, (to_bytes05 b).data = b.data)
    ∧ (∀ b : Bytes05, (from_bytes05 b).data = b.data)
    ∧ (∀ b : Bytes05, to_bytes05 (from_bytes05 b) = b) :=
  ⟨fun _ => rfl, fun _ => rfl, fun _ => rfl, fun _ => rfl⟩

/-- Claim C6: map_compression_poll copies decoded values through the buffer
conversion, wraps every io-level decoder error as a Decode error (never a
Transport error), and passes end-of-data and suspension through unchanged. -/
theorem map_compression_poll_spec :
    (∀ v, map_compression_poll (Poll.ready (Option.some (Except.ok v)))
      = Poll.ready (Option.some (Except.ok (from_bytes05 v))))
    ∧ (∀ e, map_compression_poll (Poll.ready (Option.some (Except.error e)))
      = Poll.ready (Option.some (Except.error (Error.decode_io e))))
    ∧ map_compression_poll (Poll.ready Option.none) = Poll.ready Option.none
    ∧ map_compression_poll Poll.pending = Poll.pending
    ∧ ∀ e, Error.decode_io e = Error.Decode e :=
  ⟨fun _ => rfl, fun _ => rfl, rfl, rfl, fun _ => rfl⟩

/-- Claim C2: whenever a poll of a Chunks stream returns end-of-data, the
state after that poll is Empty (the backend is dropped); and from the Empty
state any number of further polls returns end-of-data each time while the
state stays Empty, with no backend ever re-acquired. -/
theorem exhaustion_is_terminal :
    (∀ c : Chunks, (Chunks.pollNext c).1 = Poll.ready Option.none →
      (Chunks.pollNext c).2 = ⟨Inner.Empty⟩)
    ∧ ∀ k : Nat, pollIter k ⟨Inner.Empty⟩
      = (List.replicate k (Poll.ready Option.none), ⟨Inner.Empty⟩) := by
  constructor
  · intro c h
    rcases hs : Chunks.pollStep c with ⟨p, i⟩
    rcases p with a | _
    · rcases a with _ | r
      · simp [Chunks.pollNext, hs]
      · simp [Chunks.pollNext, hs] at h
    · simp [Chunks.pollNext, hs] at h
  · exact pollIter_empty

/-- Witness for claim C2: the first conjunct applied to the concrete
exhausted stream, whose poll returns end-of-data. -/
theorem exhaustion_is_terminal_witness :
    (Chunks.pollNext ⟨Inner.Empty⟩).2 = ⟨Inner.Empty⟩ :=
  exhaustion_is_terminal.1 ⟨Inner.Empty⟩ rfl

/-- Helper: one unfolding step of iterated polling. -/
lemma pollIter_succ (n : Nat) (c : Chunks) :
    pollIter (n + 1) c
      = ((Chunks.pollNext c).1 :: (pollIter n (Chunks.pollNext c).2).1,
          (pollIter n (Chunks.pollNext c).2).2) := by
  rcases hc : Chunks.pollNext c with ⟨p, c2⟩
  rcases hi : pollIter n c2 with ⟨rs, c3⟩
  simp [pollIter, hc, hi]

/-- Claim C5: with algorithm None the stream is a pure passthrough: every
scheduled transport event is yielded with identical payload bytes in the
same order, end-of-data passes through unchanged, and only transport errors
are converted by the direct mapping; in particular a raw body ABC yields
one chunk ABC and then end-of-data. -/
theorem plain_passthrough :
    (∀ (evs : List BodyEvent) (h : Nat × Option Nat),
      pollIter (evs.length + 1) ⟨Inner.Plain ⟨evs, h⟩⟩
        = (evs.map plainItem ++ [Poll.ready Option.none], ⟨Inner.Empty⟩))
    ∧ pollIter 2 ⟨Inner.Plain ⟨[BodyEvent.chunk ⟨[65, 66, 67]⟩], (0, Option.none)⟩⟩
      = ([Poll.ready (Option.some (Except.ok ⟨[65, 66, 67]⟩)), Poll.ready Option.none],
          ⟨Inner.Empty⟩) := by
  constructor
  · intro evs h
    induction evs with
    | nil => rfl
    | cons ev r ih =>
      have hstep : Chunks.pollNext ⟨Inner.Plain ⟨ev :: r, h⟩⟩
          = (plainItem ev, ⟨Inner.Plain ⟨r, h⟩⟩) := by
        cases ev <;> rfl
      simp only [List.length_cons]
      rw [pollIter_succ, hstep]
      simp [ih]
  · rfl

/-- Claim C4: a corrupted compressed payload, modelled as a decoder
emitting zero or more valid buffers followed by one io-level failure and
then end-of-data, makes the stream yield exactly those valid chunks in
order, then exactly one Decode error as the terminal item, then end-of-data
on every further poll with the state Empty: no valid chunk preceding the
corruption point is withheld. -/
theorem corrupted_stream_decode_error_terminal :
    ∀ (outs : List Bytes05) (e : IoError) (h : Nat × Option Nat) (k : Nat),
      pollIter (outs.length + 2 + k)
          ⟨Inner.Gzip ⟨outs.map DecEvent.out ++ [DecEvent.ioErr e], h⟩⟩
        = ((outs.map fun b => Poll.ready (Option.some (Except.ok (from_bytes05 b))))
            ++ [Poll.ready (Option.some (Except.error (Error.decode_io e))),
                Poll.ready Option.none]
            ++ List.replicate k (Poll.ready Option.none), ⟨Inner.Empty⟩) := by
  intro outs e h k
  induction outs with
  | nil =>
    have hn : ([] : List Bytes05).length + 2 + k = (k + 1) + 1 := by
      simp only [List.length_nil]; omega
    have h1 : Chunks.pollNext ⟨Inner.Gzip ⟨[DecEvent.ioErr e], h⟩⟩
        = (Poll.ready (Option.some (Except.error (Error.decode_io e))),
            ⟨Inner.Gzip ⟨[], h⟩⟩) := rfl
    have h2 : Chunks.pollNext ⟨Inner.Gzip ⟨[], h⟩⟩
        = (Poll.ready Option.none, ⟨Inner.Empty⟩) := rfl
    rw [hn, pollIter_succ]
    simp only [List.map_nil, List.nil_append]
    rw [h1]
    simp only []
    rw [pollIter_succ, h2]
    simp [pollIter_empty]
  | cons b r ih =>
    have hn : (b :: r).length + 2 + k = (r.length + 2 + k) + 1 := by
      simp only [List.length_cons]; omega
    have hstep : Chunks.pollNext
          ⟨Inner.Gzip ⟨DecEvent.out b :: (r.map DecEvent.out ++ [DecEvent.ioErr e]), h⟩⟩
        = (Poll.ready (Option.some (Except.ok (from_bytes05 b))),
            ⟨Inner.Gzip ⟨r.map DecEvent.out ++ [DecEvent.ioErr e], h⟩⟩) := rfl
    rw [hn]
    simp only [List.map_cons, List.cons_append]
    rw [pollIter_succ, hstep]
    simp [ih]

/-- Claim C1: for every response whose status is not 200, resolve reads the
entire body, decodes it lossily, trims surrounding whitespace and fails
with BadResponse carrying that text, for every negotiated algorithm and
every backend constructor, with the state left in Waiting (no backend is
constructed and no decompression is attempted). -/
theorem bad_status_yields_trimmed_reason :
    ∀ (ng nz nb : BodyAdapter → CompressionDecoder) (nl : Body → Lz4Decoder)
      (compression : Compression) (status : Nat) (body : Body) (bs : List Nat),
      status ≠ 200 → bodyToBytes body.events = Except.ok bs →
      resolve ng nz nb nl
          (Response.Waiting (ResponseFuture.ready (Except.ok ⟨status, body⟩)) compression)
        = Option.some (Except.error (Error.BadResponse (trim (fromUtf8Lossy bs))),
            Response.Waiting ResponseFuture.consumed compression) := by
  intro ng nz nb nl compression status body bs hs hb
  simp [resolve, hs, hb]

/-- Witness for claim C1: status 500 with body Internal Server Error fails
with BadResponse carrying exactly that text, under the gzip algorithm. -/
theorem bad_status_yields_trimmed_reason_witness :
    resolve (fun _ => ⟨[], (0, Option.none)⟩) (fun _ => ⟨[], (0, Option.none)⟩)
      (fun _ => ⟨[], (0, Option.none)⟩) (fun _ => ⟨[], (0, Option.none)⟩)
      (Response.Waiting (ResponseFuture.ready (Except.ok ⟨500,
        ⟨[BodyEvent.chunk ⟨[73, 110, 116, 101, 114, 110, 97, 108, 32, 83, 101, 114,
          118, 101, 114, 32, 69, 114, 114, 111, 114]⟩], (0, Option.none)⟩⟩))
        Compression.gzip)
    = Option.some (Except.error (Error.BadResponse
        [73, 110, 116, 101, 114, 110, 97, 108, 32, 83, 101, 114,
          118, 101, 114, 32, 69, 114, 114, 111, 114]),
        Response.Waiting ResponseFuture.consumed Compression.gzip) :=
  bad_status_yields_trimmed_reason (fun _ => ⟨[], (0, Option.none)⟩) (fun _ => ⟨[], (0, Option.none)⟩) (fun _ => ⟨[], (0, Option.none)⟩) (fun _ => ⟨[], (0, Option.none)⟩) Compression.gzip 500
    ⟨[BodyEvent.chunk ⟨[73, 110, 116, 101, 114, 110, 97, 108, 32, 83, 101, 114,
      118, 101, 114, 32, 69, 114, 114, 111, 114]⟩], (0, Option.none)⟩
    [73, 110, 116, 101, 114, 110, 97, 108, 32, 83, 101, 114,
      118, 101, 114, 32, 69, 114, 114, 111, 114] (by decide) rfl

/-- Claim C10: when the status is not 200 and draining the error body
itself fails with a transport error, resolve surfaces that underlying
failure as a Transport error and produces no BadResponse reason. -/
theorem error_body_read_failure_is_transport :
    ∀ (ng nz nb : BodyAdapter → CompressionDecoder) (nl : Body → Lz4Decoder)
      (compression : Compression) (status : Nat) (body : Body) (e : HyperError),
      status ≠ 200 → bodyToBytes body.events = Except.error e →
      resolve ng nz nb nl
          (Response.Waiting (ResponseFuture.ready (Except.ok ⟨status, body⟩)) compression)
        = Option.some (Except.error (Error.Transport e),
            Response.Waiting ResponseFuture.consumed compression) := by
  intro ng nz nb nl compression status body e hs hb
  simp [resolve, hs, hb, Error.fromHyper]

/-- Witness for claim C10: status 500 whose body stream fails while being
drained makes resolve fail with the Transport error, not BadResponse. -/
theorem error_body_read_failure_is_transport_witness :
    resolve (fun _ => ⟨[], (0, Option.none)⟩) (fun _ => ⟨[], (0, Option.none)⟩)
      (fun _ => ⟨[], (0, Option.none)⟩) (fun _ => ⟨[], (0, Option.none)⟩)
      (Response.Waiting (ResponseFuture.ready (Except.ok ⟨500,
        ⟨[BodyEvent.fail ⟨7⟩], (0, Option.none)⟩⟩)) Compression.none)
    = Option.some (Except.error (Error.Transport ⟨7⟩),
        Response.Waiting ResponseFuture.consumed Compression.none) :=
  error_body_read_failure_is_transport _ _ _ _ _ _ _ _ (by decide) rfl

/-- Claim C9: the success status is exactly 200: every other success-class
status (201 to 299) still takes the error-body path and fails with
BadResponse, leaving the state in Waiting so that no decoding stream is
constructed. -/
theorem success_status_is_exactly_200 :
    ∀ (ng nz nb : BodyAdapter → CompressionDecoder) (nl : Body → Lz4Decoder)
      (compression : Compression) (status : Nat) (body : Body) (bs : List Nat),
      200 ≤ status → status ≤ 299 → status ≠ 200 →
      bodyToBytes body.events = Except.ok bs →
      resolve ng nz nb nl
          (Response.Waiting (ResponseFuture.ready (Except.ok ⟨status, body⟩)) compression)
        = Option.some (Except.error (Error.BadResponse (trim (fromUtf8Lossy bs))),
            Response.Waiting ResponseFuture.consumed compression) := by
  intro ng nz nb nl compression status body bs _ _ hs hb
  simp [resolve, hs, hb]

/-- Witness for claim C9: 201 Created and 204 No Content both take the
error-body path and fail with BadResponse. -/
theorem success_status_is_exactly_200_witness :
    (resolve (fun _ => ⟨[], (0, Option.none)⟩) (fun _ => ⟨[], (0, Option.none)⟩)
      (fun _ => ⟨[], (0, Option.none)⟩) (fun _ => ⟨[], (0, Option.none)⟩)
      (Response.Waiting (ResponseFuture.ready (Except.ok ⟨201,
        ⟨[BodyEvent.chunk ⟨[111, 107]⟩], (0, Option.none)⟩⟩)) Compression.none)
    = Option.some (Except.error (Error.BadResponse [111, 107]),
        Response.Waiting ResponseFuture.consumed Compression.none))
    ∧ (resolve (fun _ => ⟨[], (0, Option.none)⟩) (fun _ => ⟨[], (0, Option.none)⟩)
      (fun _ => ⟨[], (0, Option.none)⟩) (fun _ => ⟨[], (0, Option.none)⟩)
      (Response.Waiting (ResponseFuture.ready (Except.ok ⟨204,
        ⟨[], (0, Option.none)⟩⟩)) Compression.gzip)
    = Option.some (Except.error (Error.BadResponse []),
        Response.Waiting ResponseFuture.consumed Compression.gzip)) :=
  ⟨success_status_is_exactly_200 (fun _ => ⟨[], (0, Option.none)⟩) (fun _ => ⟨[], (0, Option.none)⟩) (fun _ => ⟨[], (0, Option.none)⟩) (fun _ => ⟨[], (0, Option.none)⟩) Compression.none 201
      ⟨[BodyEvent.chunk ⟨[111, 107]⟩], (0, Option.none)⟩ [111, 107]
      (by decide) (by decide) (by decide) rfl,
   success_status_is_exactly_200 (fun _ => ⟨[], (0, Option.none)⟩) (fun _ => ⟨[], (0, Option.none)⟩) (fun _ => ⟨[], (0, Option.none)⟩) (fun _ => ⟨[], (0, Option.none)⟩) Compression.gzip 204
      ⟨[], (0, Option.none)⟩ []
      (by decide) (by decide) (by decide) rfl⟩

/-- Claim C3 (amended): resolve is idempotent after its first success:
whenever it returns a realized stream, the state is Loading with exactly
that stream, and every further call returns the same stream and state
without re-awaiting, re-checking the status or re-constructing a backend.
After a first terminal failure, however, the state remains Waiting with the
future consumed, and a further call awaits the already-consumed future,
which has no defined outcome. -/
theorem resolve_idempotent_after_first_success :
    (∀ (ng nz nb : BodyAdapter → CompressionDecoder) (nl : Body → Lz4Decoder)
      (r : Response) (ch : Chunks) (r2 : Response),
      resolve ng nz nb nl r = Option.some (Except.ok ch, r2) →
      r2 = Response.Loading ch ∧
        resolve ng nz nb nl r2 = Option.some (Except.ok ch, r2))
    ∧ (∀ (ng nz nb : BodyAdapter → CompressionDecoder) (nl : Body → Lz4Decoder)
      (f : ResponseFuture) (compression : Compression) (err : Error) (r2 : Response),
      resolve ng nz nb nl (Response.Waiting f compression)
          = Option.some (Except.error err, r2) →
      r2 = Response.Waiting ResponseFuture.consumed compression ∧
        resolve ng nz nb nl r2 = Option.none) := by
  constructor
  · intro ng nz nb nl r ch r2 hres
    cases r with
    | Loading ch0 =>
      simp [resolve] at hres
      obtain ⟨h1, h2⟩ := hres
      subst h1; subst h2
      simp [resolve]
    | Waiting f compression =>
      cases f with
      | consumed => simp [resolve] at hres
      | ready res =>
        cases res with
        | error e => simp [resolve] at hres
        | ok response =>
          by_cases hst : response.status = 200
          · simp [resolve, hst] at hres
            obtain ⟨h1, h2⟩ := hres
            subst h1; subst h2
            simp [resolve]
          · rcases hbt : bodyToBytes response.body.events with e | bs <;>
              simp [resolve, hst, hbt] at hres
  · intro ng nz nb nl f compression err r2 hres
    cases f with
    | consumed => simp [resolve] at hres
    | ready res =>
      cases res with
      | error e =>
        simp [resolve] at hres
        obtain ⟨-, h2⟩ := hres
        subst h2
        exact ⟨rfl, rfl⟩
      | ok response =>
        by_cases hst : response.status = 200
        · simp [resolve, hst] at hres
        · rcases hbt : bodyToBytes response.body.events with e | bs <;>
            · simp [resolve, hst, hbt] at hres
              obtain ⟨-, h2⟩ := hres
              subst h2
              exact ⟨rfl, rfl⟩

/-- Witness for claim C3: applying the first-success idempotence to a
concrete resolved plain response. -/
theorem resolve_idempotent_after_first_success_witness :
    Response.Loading ⟨Inner.Plain ⟨[], (0, Option.none)⟩⟩
        = Response.Loading ⟨Inner.Plain ⟨[], (0, Option.none)⟩⟩
    ∧ resolve (fun _ => ⟨[], (0, Option.none)⟩) (fun _ => ⟨[], (0, Option.none)⟩)
      (fun _ => ⟨[], (0, Option.none)⟩) (fun _ => ⟨[], (0, Option.none)⟩)
      (Response.Loading ⟨Inner.Plain ⟨[], (0, Option.none)⟩⟩)
      = Option.some (Except.ok ⟨Inner.Plain ⟨[], (0, Option.none)⟩⟩,
          Response.Loading ⟨Inner.Plain ⟨[], (0, Option.none)⟩⟩) :=
  resolve_idempotent_after_first_success.1
    (fun _ => ⟨[], (0, Option.none)⟩) (fun _ => ⟨[], (0, Option.none)⟩)
    (fun _ => ⟨[], (0, Option.none)⟩) (fun _ => ⟨[], (0, Option.none)⟩)
    (Response.Waiting (ResponseFuture.ready (Except.ok ⟨200, ⟨[], (0, Option.none)⟩⟩))
      Compression.none)
    ⟨Inner.Plain ⟨[], (0, Option.none)⟩⟩
    (Response.Loading ⟨Inner.Plain ⟨[], (0, Option.none)⟩⟩) rfl

/-- Counterexample for claim C3 as stated: after a first terminal failure
(a transport error while awaiting the deferred response) the Response is
left in Waiting with the future consumed, and a second resolve call has no
defined outcome instead of returning the first failure again, so resolve is
not idempotent after a terminal failure. -/
theorem resolve_after_terminal_failure_not_defined :
    resolve (fun _ => ⟨[], (0, Option.none)⟩) (fun _ => ⟨[], (0, Option.none)⟩)
      (fun _ => ⟨[], (0, Option.none)⟩) (fun _ => ⟨[], (0, Option.none)⟩)
      (Response.new (ResponseFuture.ready (Except.error ⟨0⟩)) Compression.none)
      = Option.some (Except.error (Error.Transport ⟨0⟩),
          Response.Waiting ResponseFuture.consumed Compression.none)
    ∧ resolve (fun _ => ⟨[], (0, Option.none)⟩) (fun _ => ⟨[], (0, Option.none)⟩)
      (fun _ => ⟨[], (0, Option.none)⟩) (fun _ => ⟨[], (0, Option.none)⟩)
      (Response.Waiting ResponseFuture.consumed Compression.none) = Option.none :=
  ⟨rfl, rfl⟩

end Resp
